import Mathlib

/-!
Shallow embedding of `src/pta_tool_class.py` (class `PTAContestGenerator`),
a script that converts contest data fetched from the PTA web API into an
ICPC-style contest XML document.

Modelling conventions:
* Parsed JSON responses are represented by typed Lean structures; a whole
  generation run consumes a fixed `Scenario` of responses (one per request,
  in request order), making the network oracle explicit.
* `datetime` values are represented by `PDateTime`: a timestamp in whole
  seconds plus an `aware` flag (timezone-aware vs naive); subtracting an
  aware from a naive datetime raises in Python, modelled by `trySubDt`
  returning `none`.
* Python exceptions are modelled with `Except`; the two custom exception
  classes `PTAAuthError` / `PTAAPIError` become `PtaErr.auth` / `PtaErr.api`.
* `xml.etree.ElementTree` elements become `XNode` (tag, text, tail,
  children); `_indent` and `tree.write` become the pure functions
  `indentNode` and `renderNode` / `serializeDoc`.
-/

inductive PtaErr where
  | auth (msg : String)
  | api (msg : String)
deriving DecidableEq

inductive GenErr where
  | usageError
  | pta (e : PtaErr)
deriving DecidableEq

/-- An ElementTree element: tag, text, tail and child elements. -/
inductive XNode where
  | mk (tag : String) (text : Option String) (tail : Option String) (children : List XNode)

def XNode.tag : XNode → String
  | .mk t _ _ _ => t

def XNode.text : XNode → Option String
  | .mk _ tx _ _ => tx

def XNode.tailText : XNode → Option String
  | .mk _ _ tl _ => tl

def XNode.children : XNode → List XNode
  | .mk _ _ _ cs => cs

/-- `ET.SubElement(parent, tag).text = txt` for a leaf node. -/
def xleaf (tag txt : String) : XNode := XNode.mk tag (some txt) none []

/-- Leaf whose text may be `None` (e.g. `sub.get("userId")`). -/
def xleafOpt (tag : String) (txt : Option String) : XNode := XNode.mk tag txt none []

/-- Text of the first child with the given tag, as `elem.find(tag).text`. -/
def findChildText (tag : String) (n : XNode) : Option String :=
  (n.children.find? (fun c => c.tag == tag)).bind XNode.text

/-- Python truthiness test `not t or not t.strip()` on an optional string. -/
def blankOpt : Option String → Bool
  | none => true
  | some s => s.trim == ""

def indentSpaces (level : Nat) : String := String.join (List.replicate level "  ")

mutual
/-- `PTAContestGenerator._indent`: in-place pretty-printing of the tree,
modelled as a pure function returning the mutated tree. -/
def indentNode : Nat → XNode → XNode
  | level, XNode.mk tag tx tl cs =>
    let i := "\n" ++ indentSpaces level
    if cs.isEmpty then
      XNode.mk tag tx (if level ≠ 0 ∧ blankOpt tl then some i else tl) cs
    else
      XNode.mk tag
        (if blankOpt tx then some (i ++ "  ") else tx)
        (if blankOpt tl then some i else tl)
        (indentChildren (level + 1) cs)

def indentChildren : Nat → List XNode → List XNode
  | _, [] => []
  | level, c :: cs => indentNode level c :: indentChildren level cs
end

mutual
/-- Serialization of one element, following `ElementTree.write`:
`<tag />` for an empty element, otherwise `<tag>text children</tag>`,
followed by the element's tail text. -/
def renderNode : XNode → String
  | XNode.mk tag tx tl cs =>
    (if cs.isEmpty && (tx.getD "") == "" then "<" ++ tag ++ " />"
     else "<" ++ tag ++ ">" ++ tx.getD "" ++ renderChildren cs ++ "</" ++ tag ++ ">")
    ++ tl.getD ""

def renderChildren : List XNode → String
  | [] => ""
  | c :: cs => renderNode c ++ renderChildren cs
end

/-- `_save_xml`: indent the tree in place, then write it with an XML
declaration (UTF-8). The file contents as a string. -/
def serializeDoc (root : XNode) : String :=
  "<?xml version='1.0' encoding='utf-8'?>\n" ++ renderNode (indentNode 0 root)

/-! ## `_safe_request` (HTTP response handling) -/

/-- An HTTP response as seen by `_safe_request`: status code, Content-Type
header, raw body text, and the value `resp.json()` would return.  The parsed
JSON payload is abstracted to a string token since its structure is not
examined by the wrapper. -/
structure HttpResp where
  status : Nat
  contentType : String
  text : String
  jsonBody : String
deriving DecidableEq

/-- Python `'application/json' in content_type` (substring test). -/
def contentTypeIsJson (ct : String) : Bool :=
  decide (List.IsInfix ("application/json".data) ct.data)

/-- Python `resp.text[:100].replace('\n', ' ')`. -/
def snippet100 (s : String) : String :=
  String.mk ((s.data.take 100).map (fun c => if c = '\n' then ' ' else c))

def authFailMsg : String := "认证失败 [401]。请检查 Cookie。"

def notJsonMsg (status : Nat) (body : String) : String :=
  "期望 JSON 但收到 HTML (状态码 " ++ toString status ++ ")。内容片段: "
    ++ snippet100 body ++ "..."

def badStatusMsg (status : Nat) : String :=
  "API 请求失败，状态码: " ++ toString status

def debugDumpPath : String := "pta_error_dump.html"

/-- `PTAContestGenerator._safe_request`, given the HTTP response it received.
Returns the parsed JSON body or the raised error, paired with the debug file
write it performs (`some (path, contents)`) if any. -/
def safe_request (resp : HttpResp) : Except PtaErr String × Option (String × String) :=
  let isError := resp.status ≠ 200
  let isNotJson := ¬ contentTypeIsJson resp.contentType
  if isError ∨ isNotJson then
    let dump := some (debugDumpPath, resp.text)
    if resp.status = 401 then
      (Except.error (PtaErr.auth authFailMsg), dump)
    else if isNotJson then
      (Except.error (PtaErr.api (notJsonMsg resp.status resp.text)), dump)
    else
      (Except.error (PtaErr.api (badStatusMsg resp.status)), dump)
  else
    (Except.ok resp.jsonBody, none)

/-! ## `_process_exam_info` (contest metadata) -/

/-- A parsed `datetime`: timestamp in whole seconds since the epoch plus
whether it is timezone-aware (`parse_time` yields an aware value exactly
when the ISO string carried an offset / trailing Z). -/
structure PDateTime where
  ts : Int
  aware : Bool
deriving DecidableEq

/-- Python datetime subtraction: raises `TypeError` when mixing aware and
naive operands, otherwise the difference in seconds. -/
def trySubDt (a b : PDateTime) : Option Int :=
  if a.aware = b.aware then some (a.ts - b.ts) else none

/-- The `problemSet` object of the problem-set detail response, restricted
to the fields `_process_exam_info` reads.  `startAt` / `endAt` are stored
already parsed; `none` models an absent key (the code then falls back to
"1970-01-01T00:00:00Z", i.e. timestamp 0, aware). -/
structure ProblemSetDetail where
  name : Option String
  psid : Option Int
  startAt : Option PDateTime
  endAt : Option PDateTime
  duration : Option Int
deriving DecidableEq

def startDt (d : ProblemSetDetail) : PDateTime := d.startAt.getD ⟨0, true⟩

def endDt (d : ProblemSetDetail) : PDateTime := d.endAt.getD ⟨0, true⟩

/-- `self.contest_start_dt` timestamp (astimezone(utc) does not change the
instant; a naive value is interpreted in the runtime's UTC locale). -/
def contestStart (d : ProblemSetDetail) : Int := (startDt d).ts

/-- Duration resolution of `_process_exam_info` lines 236-246: take the
explicit `duration` field (default 0); if it is ≤ 0 try `end - start`;
only if that subtraction raises fall back to 18000 seconds. -/
def resolveDuration (d : ProblemSetDetail) : Int :=
  let d0 := d.duration.getD 0
  if d0 ≤ 0 then
    match trySubDt (endDt d) (startDt d) with
    | some sec => sec
    | none => 18000
  else d0

/-- Python `f"{m:02d}"` for the minute/second fields. -/
def pad2 (n : Int) : String :=
  if 0 ≤ n ∧ n < 10 then "0" ++ toString n else toString n

/-- `m, s = divmod(d, 60); h, m = divmod(m, 60); f"{h}:{m:02d}:{s:02d}"`
(Python divmod floors, matching `Int.ediv`/`Int.emod` for divisor 60). -/
def formatHMS (d : Int) : String :=
  let m := Int.ediv d 60
  let s := Int.emod d 60
  let h := Int.ediv m 60
  let m2 := Int.emod m 60
  toString h ++ ":" ++ pad2 m2 ++ ":" ++ pad2 s

/-- `str(problem_set.get("id", "0"))`. -/
def contestIdText (d : ProblemSetDetail) : String :=
  match d.psid with
  | some n => toString n
  | none => "0"

/-- The `info` node built by `_process_exam_info` (the fetch itself is
supplied by the scenario; this is the pure node construction). -/
def process_exam_info (d : ProblemSetDetail) : XNode :=
  XNode.mk "info" none none
    [ xleaf "title" (d.name.getD "PTA Contest")
    , xleaf "short-title" (d.name.getD "PTA Contest")
    , xleaf "contest-id" (contestIdText d)
    , xleaf "starttime" (toString (contestStart d) ++ ".0")
    , xleaf "length" (formatHMS (resolveDuration d))
    , xleaf "penalty" "20"
    , xleaf "started" "False"
    , xleaf "scoreboard-freeze-length" "1:00:00" ]

/-! ## `_add_static_nodes` -/

structure GenConfig where
  organization : String
  regionId : String
deriving DecidableEq

def regionNode (cfg : GenConfig) : XNode :=
  XNode.mk "region" none none
    [xleaf "external-id" cfg.regionId, xleaf "name" cfg.organization]

def judgements_conf : List (String × String × String × String × String) :=
  [ ("1", "AC", "ACCEPTED", "true", "false")
  , ("2", "SF", "SEGMENTATION_FAULT", "false", "true")
  , ("3", "WA", "WRONG_ANSWER", "false", "true")
  , ("4", "TLE", "TIME_LIMIT_EXCEEDED", "false", "true")
  , ("5", "CE", "COMPILE_ERROR", "false", "false")
  , ("6", "FPE", "FLOAT_POINT_EXCEPTION", "false", "true")
  , ("7", "MLE", "MEMORY_LIMIT_EXCEEDED", "false", "true")
  , ("8", "NZEC", "NON_ZERO_EXIT_CODE", "false", "true")
  , ("9", "RE", "RUNTIME_ERROR", "false", "true")
  , ("10", "PE", "PRESENTATION_ERROR", "false", "true")
  , ("11", "OLE", "OUTPUT_LIMIT_EXCEEDED", "false", "true") ]

def judgementNode : String × String × String × String × String → XNode
  | (jid, acr, nm, solved, pen) =>
    XNode.mk "judgement" none none
      [ xleaf "id" jid, xleaf "acronym" acr, xleaf "name" nm
      , xleaf "solved" solved, xleaf "penalty" pen ]

def judgementNodes : List XNode := judgements_conf.map judgementNode

def languages_conf : List (String × String) :=
  [("1", "c"), ("2", "c++"), ("3", "java"), ("4", "python")]

def languageNode : String × String → XNode
  | (lid, lname) => XNode.mk "language" none none [xleaf "id" lid, xleaf "name" lname]

def languageNodes : List XNode := languages_conf.map languageNode

/-! ## Fixed vocabularies (`compiler_map`, `result_map`) -/

/-- `self.compiler_map` as an association list in insertion order. -/
def compiler_map : List (String × String) :=
  [ ("GCC", "1"), ("CLANG", "1")
  , ("GXX", "2"), ("CLANGXX", "2"), ("C++", "2")
  , ("JAVA", "3")
  , ("PYTHON3", "4"), ("PYPY3", "4") ]

/-- `self.result_map` as an association list in insertion order. -/
def result_map : List (String × String) :=
  [ ("ACCEPTED", "AC")
  , ("WRONG_ANSWER", "WA")
  , ("TIME_LIMIT_EXCEEDED", "TLE")
  , ("COMPILE_ERROR", "CE")
  , ("SEGMENTATION_FAULT", "SF")
  , ("FLOAT_POINT_EXCEPTION", "FPE")
  , ("MEMORY_LIMIT_EXCEEDED", "MLE")
  , ("NON_ZERO_EXIT_CODE", "NZEC")
  , ("RUNTIME_ERROR", "RE")
  , ("PRESENTATION_ERROR", "PE")
  , ("OUTPUT_LIMIT_EXCEEDED", "OLE") ]

/-- `self.result_map.get(pta_status, "WA")`. -/
def resultAcronym (s : String) : String :=
  (List.lookup s result_map).getD "WA"

/-- `self.compiler_map.get(compiler, "1")`. -/
def compilerLangId (s : String) : String :=
  (List.lookup s compiler_map).getD "1"

/-! ## `_process_problems` -/

/-- One entry of the `problemSetProblems` listing (only `id` is read). -/
structure ProblemEntry where
  pid : Option String
deriving DecidableEq

/-- A `label_map` value: `{"xml_id": ..., "letter": ...}`. -/
structure ProblemConf where
  xmlId : String
  letter : String
deriving DecidableEq

/-- `label_map` is a Python dict keyed by `p.get("id")` (possibly `None`). -/
abbrev LabelMap := List (Option String × ProblemConf)

/-- Python dict assignment `d[k] = v`: overwrite in place, else append. -/
def dictInsert {α β : Type} [DecidableEq α] : List (α × β) → α → β → List (α × β)
  | [], k, v => [(k, v)]
  | (k', v') :: rest, k, v =>
    if k' = k then (k, v) :: rest else (k', v') :: dictInsert rest k v

def problemLetterStr (idx : Nat) : String := (Char.ofNat (65 + idx)).toString

def mkProblemNode (idx : Nat) : XNode :=
  XNode.mk "problem" none none
    [ xleaf "id" (toString (idx + 1))
    , xleaf "letter" (problemLetterStr idx)
    , xleaf "name" ("Problem " ++ problemLetterStr idx) ]

def process_problems_aux : List ProblemEntry → Nat → LabelMap → LabelMap × List XNode
  | [], _, lm => (lm, [])
  | p :: rest, idx, lm =>
    let conf : ProblemConf := ⟨toString (idx + 1), problemLetterStr idx⟩
    let lm2 := dictInsert lm p.pid conf
    let r := process_problems_aux rest (idx + 1) lm2
    (r.1, mkProblemNode idx :: r.2)

/-- `_process_problems` applied to the parsed `problemSetProblems` listing:
returns the filled `label_map` and the emitted problem nodes. -/
def process_problems (ps : List ProblemEntry) : LabelMap × List XNode :=
  process_problems_aux ps 0 []

/-! ## `_process_teams` -/

structure StudentRec where
  name : Option String
deriving DecidableEq

structure ExamRec where
  studentUser : Option StudentRec
deriving DecidableEq

structure Member where
  userId : Option String
  studentUserId : Option String
deriving DecidableEq

/-- One page of the `user-group-members` endpoint. -/
structure TeamPage where
  total : Nat
  examByUserId : List (String × ExamRec)
  studentUserById : List (String × StudentRec)
  userGroupMembers : List Member
deriving DecidableEq

structure TeamMaps where
  exam : List (String × ExamRec)
  stud : List (String × StudentRec)
deriving DecidableEq

/-- Python `d.update(other)`: assign every pair of `other` in order. -/
def dictUpdateAll {α β : Type} [DecidableEq α]
    (m other : List (α × β)) : List (α × β) :=
  other.foldl (fun acc kv => dictInsert acc kv.1 kv.2) m

/-- `_get_team_name`. -/
def get_team_name (maps : TeamMaps) (userId : String)
    (studentUserId : Option String) : String :=
  let tryStud : String :=
    match studentUserId with
    | some sid =>
      match List.lookup sid maps.stud with
      | some sr =>
        let n := (sr.name.getD "").trim
        if n ≠ "" then n else "Team_" ++ userId
      | none => "Team_" ++ userId
    | none => "Team_" ++ userId
  match List.lookup userId maps.exam with
  | some er =>
    let n := (((er.studentUser.getD ⟨none⟩).name).getD "").trim
    if n ≠ "" then n else tryStud
  | none => tryStud

def mkTeamNode (cfg : GenConfig) (userId nm : String) : XNode :=
  XNode.mk "team" none none
    [ xleaf "id" userId
    , xleaf "external-id" cfg.regionId
    , xleaf "region" cfg.organization
    , xleaf "name" nm
    , xleaf "university" cfg.organization ]

/-- `_add_team_node`: skip (no node) when `userId` is falsy. -/
def add_team_node (cfg : GenConfig) (maps : TeamMaps) (m : Member) : Option XNode :=
  match m.userId with
  | none => none
  | some uid =>
    if uid = "" then none
    else some (mkTeamNode cfg uid (get_team_name maps uid m.studentUserId))

/-- `_process_teams` page loop over the fixed sequence of roster responses.
`page` is the 0-based page counter; `maps` the accumulated lookup dicts.
A short page (< limit 20) or an empty member list ends the loop; a zero
`total` on the first page returns early with no nodes.  An exhausted
response sequence is modelled as ending the loop. -/
def process_teams_loop (cfg : GenConfig) :
    List (Except PtaErr TeamPage) → Nat → TeamMaps →
    Except PtaErr (TeamMaps × List XNode)
  | [], _, maps => Except.ok (maps, [])
  | Except.error e :: _, _, _ => Except.error e
  | Except.ok pg :: rest, page, maps =>
    if page = 0 ∧ pg.total = 0 then Except.ok (maps, [])
    else
      let maps2 : TeamMaps :=
        ⟨dictUpdateAll maps.exam pg.examByUserId,
         dictUpdateAll maps.stud pg.studentUserById⟩
      if pg.userGroupMembers.isEmpty then Except.ok (maps2, [])
      else
        let nodes := pg.userGroupMembers.filterMap (add_team_node cfg maps2)
        if pg.userGroupMembers.length < 20 then Except.ok (maps2, nodes)
        else
          match process_teams_loop cfg rest (page + 1) maps2 with
          | Except.error e => Except.error e
          | Except.ok (mf, more) => Except.ok (mf, nodes ++ more)

/-! ## `_process_submissions` / `_add_submission_node` -/

/-- One submission record, with the fields the script reads.  `submitAt` is
the parsed (timezone-aware) timestamp of the required key `submitAt`. -/
structure Submission where
  problemSetProblemId : Option String
  status : Option String
  compiler : Option String
  submitAt : Int
  userId : Option String
  sid : Option String
deriving DecidableEq

/-- One page of the cursor-paginated submissions endpoint. -/
structure SubPage where
  submissions : List Submission
  hasBefore : Bool
deriving DecidableEq

/-- Relative submission time: `int((submit_at - contest_start).total_seconds())`
clamped to zero when negative. -/
def relTimeSec (startTs : Int) (sub : Submission) : Int :=
  let d := sub.submitAt - startTs
  if d < 0 then 0 else d

/-- `_add_submission_node`: `none` when the problem id is missing from
`label_map` (the submission is silently dropped), otherwise the `run` node. -/
def add_submission_node (lbl : LabelMap) (startTs : Int)
    (sub : Submission) (counter : Nat) : Option XNode :=
  match List.lookup sub.problemSetProblemId lbl with
  | none => none
  | some conf =>
    let ptaStatus := sub.status.getD "UNKNOWN"
    let solved := if ptaStatus = "ACCEPTED" then "true" else "false"
    let pen := if ptaStatus = "COMPILE_ERROR" then "false" else "true"
    let lang := compilerLangId ((sub.compiler.getD "UNKNOWN").toUpper)
    some (XNode.mk "run" none none
      [ xleaf "id" (toString counter)
      , xleaf "judged" "True"
      , xleaf "language" lang
      , xleaf "problem" conf.xmlId
      , xleaf "status" "done"
      , xleafOpt "team" sub.userId
      , xleaf "time" (toString (relTimeSec startTs sub))
      , xleaf "timestamp" (toString sub.submitAt ++ ".00")
      , xleaf "solved" solved
      , xleaf "penalty" pen
      , xleaf "result" (resultAcronym ptaStatus) ])

/-- The inner `for sub in submissions` loop of `_process_submissions`:
every submission advances the run counter, whether or not a node was
emitted for it. -/
def pageRunNodes (lbl : LabelMap) (startTs : Int) :
    List Submission → Nat → List XNode
  | [], _ => []
  | s :: rest, counter =>
    (add_submission_node lbl startTs s counter).toList
      ++ pageRunNodes lbl startTs rest (counter + 1)

/-- `submissions[-1].get("id")`: the cursor for the next page. -/
def nextCursorOf (pg : SubPage) : Option String :=
  (pg.submissions.getLast?).bind Submission.sid

/-- The pagination loop of `_process_submissions` over the fixed sequence of
submission-page responses.  `before` is the cursor used for the current
request (`None` on the first).  Stops on an empty page, on `hasBefore =
false`, or — the stall guard — when the next cursor equals the current one
(a warning is logged and the loop breaks without raising).  An exhausted
response sequence is modelled as ending the loop. -/
def process_submissions_loop (lbl : LabelMap) (startTs : Int) :
    List (Except PtaErr SubPage) → Option String → Nat →
    Except PtaErr (List XNode)
  | [], _, _ => Except.ok []
  | Except.error e :: _, _, _ => Except.error e
  | Except.ok pg :: rest, before, counter =>
    if pg.submissions.isEmpty then Except.ok []
    else
      let nodes := pageRunNodes lbl startTs pg.submissions counter
      if pg.hasBefore then
        if nextCursorOf pg = before then Except.ok nodes
        else
          match process_submissions_loop lbl startTs rest (nextCursorOf pg)
              (counter + pg.submissions.length) with
          | Except.error e => Except.error e
          | Except.ok more => Except.ok (nodes ++ more)
      else Except.ok nodes

/-! ## `_add_finalized_node`, `generate_contest_xml` -/

/-- `_add_finalized_node`: `lengthText` is `info/length`'s text as found in
the document; `now` models the `datetime.now().timestamp()` reading. -/
def finalizedNode (lengthText : String) (now : Int) : XNode :=
  XNode.mk "finalized" none none
    [ xleaf "last_gold" "1"
    , xleaf "last_silver" "1"
    , xleaf "last_bronze" "1"
    , xleaf "time" lengthText
    , xleaf "timestamp" (toString now) ]

/-- The fixed sequence of parsed API responses one generation run consumes,
in request order (problem-set detail, problem listing, roster pages,
submission pages).  An `Except.error` entry models `_safe_request` raising
on that request. -/
structure Scenario where
  examDetail : Except PtaErr ProblemSetDetail
  problemsResp : Except PtaErr (List ProblemEntry)
  teamPages : List (Except PtaErr TeamPage)
  subPages : List (Except PtaErr SubPage)

/-- Python truthiness of `self.selected_problem_set_id` (an optional
string): falsy iff `None` or the empty string. -/
def strFalsy : Option String → Bool
  | none => true
  | some s => s == ""

/-- `generate_contest_xml`: the usage check, then the pipeline steps in
order, producing the in-memory document (before `_save_xml`).  `now` is the
wall-clock reading used only by `_add_finalized_node`. -/
def generate_contest_xml (cfg : GenConfig) (selected : Option String)
    (scen : Scenario) (now : Int) : Except GenErr XNode :=
  if strFalsy selected then Except.error GenErr.usageError
  else
    match scen.examDetail with
    | Except.error e => Except.error (GenErr.pta e)
    | Except.ok detail =>
      match scen.problemsResp with
      | Except.error e => Except.error (GenErr.pta e)
      | Except.ok probs =>
        let pr := process_problems probs
        match process_teams_loop cfg scen.teamPages 0 ⟨[], []⟩ with
        | Except.error e => Except.error (GenErr.pta e)
        | Except.ok (_, teamNodes) =>
          match process_submissions_loop pr.1 (contestStart detail)
              scen.subPages none 1 with
          | Except.error e => Except.error (GenErr.pta e)
          | Except.ok runNodes =>
            Except.ok (XNode.mk "contest" none none
              (process_exam_info detail :: regionNode cfg ::
                (judgementNodes ++ languageNodes ++ pr.2 ++ teamNodes
                  ++ runNodes
                  ++ [finalizedNode (formatHMS (resolveDuration detail)) now])))

/-! ## `select_problem_set` -/

structure GenState where
  selectedProblemSetId : Option String
deriving DecidableEq

/-- `select_problem_set`: the chosen id is stored *before* the validation
probe runs; `probe` is the outcome of the probe request, which is also the
outcome of the call (an error models the probe raising). -/
def select_problem_set (st : GenState) (psid : String)
    (probe : Except PtaErr Unit) : GenState × Except PtaErr Unit :=
  ({ st with selectedProblemSetId := some psid }, probe)

/-! ## Scrubbing the finalization timestamp (for the determinism claim) -/

/-- Replace the text of a `timestamp` leaf. -/
def replaceTimestampChild (s : String) : XNode → XNode
  | XNode.mk tag tx tl cs =>
    if tag = "timestamp" then XNode.mk tag (some s) tl cs
    else XNode.mk tag tx tl cs

/-- On a `finalized` element, overwrite its `timestamp` child's text. -/
def scrubFinalized (s : String) : XNode → XNode
  | XNode.mk tag tx tl cs =>
    if tag = "finalized" then
      XNode.mk tag tx tl (cs.map (replaceTimestampChild s))
    else XNode.mk tag tx tl cs

/-- Overwrite the `finalized/timestamp` text of a document root. -/
def setFinalTimestampText (s : String) : XNode → XNode
  | XNode.mk tag tx tl cs => XNode.mk tag tx tl (cs.map (scrubFinalized s))

/-! ## Concrete fixtures used by witnesses and counterexamples -/

def cfgW : GenConfig := ⟨"HBUE", "1"⟩

def lblW : LabelMap := [(some "p1", ⟨"1", "A"⟩)]

def subKnownW : Submission :=
  ⟨some "p1", some "ACCEPTED", some "GXX", 100, some "u1", some "s2"⟩

def subUnknownW : Submission :=
  ⟨some "zzz", some "WRONG_ANSWER", some "GXX", 50, some "u2", some "s1"⟩

def subEarlyW : Submission :=
  ⟨some "p1", some "ACCEPTED", some "GXX", 50, some "u2", some "s3"⟩

def runIdTexts (ns : List XNode) : List (Option String) :=
  ns.map (findChildText "id")

/-! ## Theorems -/

/-- C5: the status map is complete and injective on its fixed eleven-key
vocabulary — each key resolves to an acronym, distinct keys resolve to
distinct acronyms (the value list has no duplicates) — and every status
outside the vocabulary falls back to the default acronym "WA". -/
theorem c5_status_mapping_complete_injective :
    (result_map.map Prod.snd).Nodup ∧
    (∀ k ∈ result_map.map Prod.fst, (List.lookup k result_map).isSome) ∧
    (∀ k1 ∈ result_map.map Prod.fst, ∀ k2 ∈ result_map.map Prod.fst,
      k1 ≠ k2 → List.lookup k1 result_map ≠ List.lookup k2 result_map) ∧
    (∀ s, s ∉ result_map.map Prod.fst → resultAcronym s = "WA") := by
  refine ⟨by decide, by decide, by decide, ?_⟩
  intro s hs
  simp only [result_map, List.map_cons, List.map_nil, List.mem_cons,
    List.not_mem_nil, or_false, not_or] at hs
  obtain ⟨h1, h2, h3, h4, h5, h6, h7, h8, h9, h10, h11⟩ := hs
  have e1 := beq_eq_false_iff_ne.mpr h1
  have e2 := beq_eq_false_iff_ne.mpr h2
  have e3 := beq_eq_false_iff_ne.mpr h3
  have e4 := beq_eq_false_iff_ne.mpr h4
  have e5 := beq_eq_false_iff_ne.mpr h5
  have e6 := beq_eq_false_iff_ne.mpr h6
  have e7 := beq_eq_false_iff_ne.mpr h7
  have e8 := beq_eq_false_iff_ne.mpr h8
  have e9 := beq_eq_false_iff_ne.mpr h9
  have e10 := beq_eq_false_iff_ne.mpr h10
  have e11 := beq_eq_false_iff_ne.mpr h11
  simp [resultAcronym, result_map, List.lookup,
    e1, e2, e3, e4, e5, e6, e7, e8, e9, e10, e11]

/-- C5 witness: an unrecognized status maps to "WA". -/
theorem c5_status_mapping_witness : resultAcronym "UNKNOWN" = "WA" :=
  c5_status_mapping_complete_injective.2.2.2 "UNKNOWN" (by decide)

/-- C3: every submission that yields a run node carries a non-negative
relative time in its `time` field, and a submission timestamped before
contest start is clamped to relative time 0. -/
theorem c3_relative_time_never_negative (lbl : LabelMap) (startTs : Int)
    (sub : Submission) (counter : Nat) (n : XNode)
    (h : add_submission_node lbl startTs sub counter = some n) :
    findChildText "time" n = some (toString (relTimeSec startTs sub)) ∧
    0 ≤ relTimeSec startTs sub ∧
    (sub.submitAt < startTs → relTimeSec startTs sub = 0) := by
  rcases hl : List.lookup sub.problemSetProblemId lbl with _ | conf
  · simp [add_submission_node, hl] at h
  · simp only [add_submission_node, hl, Option.some.injEq] at h
    subst h
    refine ⟨rfl, ?_, ?_⟩
    · simp only [relTimeSec]
      split <;> omega
    · intro hlt
      simp only [relTimeSec]
      split <;> omega

/-- C3 witness: a concrete submission 50s before contest start (start 100)
is emitted with relative time 0. -/
theorem c3_relative_time_witness :
    0 ≤ relTimeSec 100 subEarlyW ∧ relTimeSec 100 subEarlyW = 0 := by
  have h := c3_relative_time_never_negative lblW 100 subEarlyW 1 _ rfl
  exact ⟨h.2.1, h.2.2 (by decide)⟩

/-- C9: the request wrapper returns the parsed JSON body on a 200 JSON
response; otherwise it writes the raw body to the fixed debug path and
raises an authentication error exactly for status 401, and an API error
otherwise — with the content snippet in the message when the content type
is not JSON, and a plain status message when it is. -/
theorem c9_safe_request_behaviour (resp : HttpResp) :
    (resp.status = 200 → contentTypeIsJson resp.contentType = true →
      safe_request resp = (Except.ok resp.jsonBody, none)) ∧
    ((resp.status ≠ 200 ∨ contentTypeIsJson resp.contentType = false) →
      (safe_request resp).2 = some (debugDumpPath, resp.text)) ∧
    (resp.status = 401 →
      (safe_request resp).1 = Except.error (PtaErr.auth authFailMsg)) ∧
    (resp.status ≠ 401 → contentTypeIsJson resp.contentType = false →
      (safe_request resp).1
        = Except.error (PtaErr.api (notJsonMsg resp.status resp.text))) ∧
    (resp.status ≠ 401 → resp.status ≠ 200 →
      contentTypeIsJson resp.contentType = true →
      (safe_request resp).1
        = Except.error (PtaErr.api (badStatusMsg resp.status))) := by
  refine ⟨?_, ?_, ?_, ?_, ?_⟩
  · intro h200 hjson
    simp [safe_request, h200, hjson]
  · intro hbad
    rcases hbad with hne | hnj
    · by_cases h401 : resp.status = 401 <;>
        by_cases hj : contentTypeIsJson resp.contentType <;>
          simp [safe_request, hne, h401, hj]
    · by_cases h401 : resp.status = 401 <;>
        by_cases hne : resp.status = 200 <;>
          simp [safe_request, hne, h401, hnj]
  · intro h401
    have hne : resp.status ≠ 200 := by omega
    by_cases hj : contentTypeIsJson resp.contentType <;>
      simp [safe_request, hne, h401, hj]
  · intro h401 hnj
    by_cases hne : resp.status = 200 <;>
      simp [safe_request, hne, h401, hnj]
  · intro h401 hne hj
    simp [safe_request, hne, h401, hj]

/-- C9 witness: a concrete 401 HTML response raises the auth error and
dumps the body to the fixed debug path. -/
theorem c9_safe_request_witness :
    (safe_request ⟨401, "text/html", "login page", "x"⟩).1
        = Except.error (PtaErr.auth authFailMsg) ∧
    (safe_request ⟨401, "text/html", "login page", "x"⟩).2
        = some (debugDumpPath, "login page") := by
  have h := c9_safe_request_behaviour ⟨401, "text/html", "login page", "x"⟩
  exact ⟨h.2.2.1 rfl, h.2.1 (Or.inl (by decide))⟩

/-- C8: calling the generation entry point with no problem set selected
returns the usage error, for every response scenario and clock reading —
so the error is raised before any network request is consulted and no
document is produced. -/
theorem c8_usage_error_without_selection (cfg : GenConfig) (scen : Scenario)
    (now : Int) :
    generate_contest_xml cfg none scen now = Except.error GenErr.usageError := by
  simp [generate_contest_xml, strFalsy]

/-- C1 counterexample to the claim as stated: with explicit duration 0 and
end = start (both timezone-aware), the explicit field and the computed
difference are both non-positive, yet the resolved duration is 0 — the
info length reads "0:00:00" — not the claimed 18000-second default. -/
theorem c1_duration_claim_counterexample :
    (ProblemSetDetail.mk none none (some ⟨100, true⟩) (some ⟨100, true⟩)
        (some 0)).duration.getD 0 ≤ 0 ∧
    (endDt (ProblemSetDetail.mk none none (some ⟨100, true⟩) (some ⟨100, true⟩)
        (some 0))).ts
      - (startDt (ProblemSetDetail.mk none none (some ⟨100, true⟩)
        (some ⟨100, true⟩) (some 0))).ts ≤ 0 ∧
    resolveDuration (ProblemSetDetail.mk none none (some ⟨100, true⟩)
        (some ⟨100, true⟩) (some 0)) = 0 ∧
    resolveDuration (ProblemSetDetail.mk none none (some ⟨100, true⟩)
        (some ⟨100, true⟩) (some 0)) ≠ 18000 ∧
    findChildText "length" (process_exam_info (ProblemSetDetail.mk none none
        (some ⟨100, true⟩) (some ⟨100, true⟩) (some 0))) = some "0:00:00" := by
  refine ⟨by decide, by decide, by decide, by decide, ?_⟩
  rfl

/-- C1 (amended): the info length is the resolved duration formatted as
H:MM:SS, where the resolution prefers a positive explicit duration field,
otherwise uses end − start whenever that subtraction succeeds (even when
the difference is zero or negative), and falls back to 18000 seconds (5
hours) only when the subtraction raises (aware/naive datetime mix). -/
theorem c1_duration_resolution (d : ProblemSetDetail) :
    findChildText "length" (process_exam_info d)
        = some (formatHMS (resolveDuration d)) ∧
    (0 < d.duration.getD 0 → resolveDuration d = d.duration.getD 0) ∧
    (d.duration.getD 0 ≤ 0 → (endDt d).aware = (startDt d).aware →
      resolveDuration d = (endDt d).ts - (startDt d).ts) ∧
    (d.duration.getD 0 ≤ 0 → (endDt d).aware ≠ (startDt d).aware →
      resolveDuration d = 18000) := by
  refine ⟨rfl, ?_, ?_, ?_⟩
  · intro hpos
    have : ¬ d.duration.getD 0 ≤ 0 := by omega
    simp [resolveDuration, this]
  · intro hle haw
    simp [resolveDuration, hle, trySubDt, haw]
  · intro hle haw
    simp [resolveDuration, hle, trySubDt, haw]

/-- C1 witness: a positive explicit duration of 5400s wins and formats as
1:30:00. -/
theorem c1_duration_resolution_witness :
    resolveDuration (ProblemSetDetail.mk none none (some ⟨0, true⟩)
        (some ⟨7200, true⟩) (some 5400)) = 5400 ∧
    findChildText "length" (process_exam_info (ProblemSetDetail.mk none none
        (some ⟨0, true⟩) (some ⟨7200, true⟩) (some 5400)))
      = some (formatHMS (resolveDuration (ProblemSetDetail.mk none none
        (some ⟨0, true⟩) (some ⟨7200, true⟩) (some 5400)))) := by
  have h := c1_duration_resolution (ProblemSetDetail.mk none none
    (some ⟨0, true⟩) (some ⟨7200, true⟩) (some 5400))
  exact ⟨h.2.1 (by decide), h.1⟩

def scenAuthFailW : Scenario :=
  ⟨Except.error (PtaErr.auth "x"), Except.ok [], [], []⟩

/-- C10: `select_problem_set` stores the chosen id before running the
validation probe, so even when the probe raises, the state keeps the id; a
subsequent generation call then passes the no-selection precondition (it
never returns the usage error) and proceeds to the first network fetch —
whose outcome, e.g. an error, is what determines the result. -/
theorem c10_select_stores_id_before_probe (st : GenState) (psid : String)
    (e : PtaErr) (h : psid ≠ "") :
    (select_problem_set st psid (Except.error e)).1.selectedProblemSetId
        = some psid ∧
    (select_problem_set st psid (Except.error e)).2 = Except.error e ∧
    (∀ cfg scen now,
      generate_contest_xml cfg
          (select_problem_set st psid (Except.error e)).1.selectedProblemSetId
          scen now
        ≠ Except.error GenErr.usageError) ∧
    (∀ cfg scen now e2, scen.examDetail = Except.error e2 →
      generate_contest_xml cfg
          (select_problem_set st psid (Except.error e)).1.selectedProblemSetId
          scen now
        = Except.error (GenErr.pta e2)) := by
  have hfal : strFalsy (some psid) = false := by
    simp [strFalsy, h]
  refine ⟨rfl, rfl, ?_, ?_⟩
  · intro cfg scen now
    simp only [select_problem_set]
    unfold generate_contest_xml
    rw [hfal]
    simp only [Bool.false_eq_true, if_false]
    cases hd : scen.examDetail with
    | error e2 => simp
    | ok detail =>
      cases hp : scen.problemsResp with
      | error e2 => simp
      | ok probs =>
        cases ht : process_teams_loop cfg scen.teamPages 0 ⟨[], []⟩ with
        | error e2 => simp
        | ok tm =>
          cases hs : process_submissions_loop (process_problems probs).1
              (contestStart detail) scen.subPages none 1 with
          | error e2 => simp [hs]
          | ok runs => simp [hs]
  · intro cfg scen now e2 hd
    simp only [select_problem_set]
    unfold generate_contest_xml
    rw [hfal]
    simp only [Bool.false_eq_true, if_false, hd]

/-- C10 witness: with a failing probe the id "ps1" stays selected and a
later generation run reaches (and fails at) the metadata fetch instead of
the usage precondition. -/
theorem c10_select_witness :
    (select_problem_set ⟨none⟩ "ps1"
        (Except.error (PtaErr.api "probe failed"))).1.selectedProblemSetId
      = some "ps1" ∧
    generate_contest_xml cfgW
        (select_problem_set ⟨none⟩ "ps1"
          (Except.error (PtaErr.api "probe failed"))).1.selectedProblemSetId
        scenAuthFailW 0
      = Except.error (GenErr.pta (PtaErr.auth "x")) := by
  have h := c10_select_stores_id_before_probe ⟨none⟩ "ps1"
    (PtaErr.api "probe failed") (by decide)
  exact ⟨h.1, h.2.2.2 cfgW scenAuthFailW 0 (PtaErr.auth "x") rfl⟩

/-- The problem nodes emitted by `_process_problems` depend only on the
position: the node list is `mkProblemNode` mapped over the index range. -/
theorem process_problems_aux_snd (ps : List ProblemEntry) :
    ∀ (idx : Nat) (lm : LabelMap),
    (process_problems_aux ps idx lm).2
      = (List.range ps.length).map (fun j => mkProblemNode (idx + j)) := by
  induction ps with
  | nil => intro idx lm; simp [process_problems_aux]
  | cons p rest ih =>
    intro idx lm
    simp only [process_problems_aux, List.length_cons, List.range_succ_eq_map,
      List.map_cons, List.map_map, Nat.add_zero]
    refine congrArg₂ List.cons rfl ?_
    rw [ih]
    apply List.map_congr_left
    intro j hj
    simp only [Function.comp_apply]
    congr 1
    omega

def psW : List ProblemEntry := [⟨some "p1"⟩, ⟨some "p2"⟩]

/-- C6: in a listing of at most 26 problems, the i-th problem (0-based
here) gets xml id `toString (i+1)`, the letter `chr(65+i)` — the i-th
uppercase letter from "A" — and the display name "Problem letter"; the
node count equals the listing length, so ids run "1".."N" and letters
"A".. in arrival order. -/
theorem c6_problem_labels (ps : List ProblemEntry) (h : ps.length ≤ 26)
    (i : Nat) (hi : i < ps.length) :
    (process_problems ps).2.length = ps.length ∧
    (process_problems ps).2[i]? = some (mkProblemNode i) ∧
    mkProblemNode i = XNode.mk "problem" none none
      [ xleaf "id" (toString (i + 1))
      , xleaf "letter" (Char.ofNat (65 + i)).toString
      , xleaf "name" ("Problem " ++ (Char.ofNat (65 + i)).toString) ] ∧
    (Char.ofNat (65 + i)).toNat = 65 + i ∧
    'A' ≤ Char.ofNat (65 + i) ∧ Char.ofNat (65 + i) ≤ 'Z' := by
  have hi26 : i < 26 := lt_of_lt_of_le hi h
  refine ⟨?_, ?_, ?_, ?_, ?_, ?_⟩
  · simp [process_problems, process_problems_aux_snd]
  · simp [process_problems, process_problems_aux_snd, List.getElem?_map,
      List.getElem?_range, hi]
  · simp [mkProblemNode, problemLetterStr]
  · interval_cases i <;> decide
  · interval_cases i <;> decide
  · interval_cases i <;> decide

/-- C6 witness: in a concrete two-problem listing the second problem gets
id "2" and letter "B". -/
theorem c6_problem_labels_witness :
    (process_problems psW).2.length = psW.length ∧
    (process_problems psW).2[1]? = some (mkProblemNode 1) ∧
    mkProblemNode 1 = XNode.mk "problem" none none
      [ xleaf "id" (toString (1 + 1))
      , xleaf "letter" (Char.ofNat (65 + 1)).toString
      , xleaf "name" ("Problem " ++ (Char.ofNat (65 + 1)).toString) ] ∧
    (Char.ofNat (65 + 1)).toNat = 65 + 1 ∧
    'A' ≤ Char.ofNat (65 + 1) ∧ Char.ofNat (65 + 1) ≤ 'Z' :=
  c6_problem_labels psW (by decide) 1 (by decide)

/-- C4 counterexample to the claim as stated: dropping a submission with an
unknown problem id still advances the run counter, so the submission after
it is emitted with run id "2" — not the id "1" it would get were the
dropped submission absent; the two node sequences differ. -/
theorem c4_run_ids_counterexample :
    runIdTexts (pageRunNodes lblW 0 [subUnknownW, subKnownW] 1) = [some "2"] ∧
    runIdTexts (pageRunNodes lblW 0 [subKnownW] 1) = [some "1"] ∧
    pageRunNodes lblW 0 [subUnknownW, subKnownW] 1
      ≠ pageRunNodes lblW 0 [subKnownW] 1 := by
  refine ⟨by decide, by decide, ?_⟩
  intro heq
  have h2 := congrArg runIdTexts heq
  rw [show runIdTexts (pageRunNodes lblW 0 [subUnknownW, subKnownW] 1)
      = [some "2"] by decide,
    show runIdTexts (pageRunNodes lblW 0 [subKnownW] 1) = [some "1"] by decide]
    at h2
  exact absurd h2 (by decide)

/-- C4 (amended): a submission whose problem id is absent from the label
map yields no run node, and the remaining submissions are still each
processed — but the run counter also advances for the dropped submission,
so later submissions keep the run id of their original position (the
emitted id sequence skips a value rather than being as-if-absent). -/
theorem c4_dropped_submission_frame (lbl : LabelMap) (startTs : Int)
    (pre post : List Submission) (bad : Submission) (c : Nat)
    (h : List.lookup bad.problemSetProblemId lbl = none) :
    (∀ k, add_submission_node lbl startTs bad k = none) ∧
    pageRunNodes lbl startTs (pre ++ bad :: post) c
      = pageRunNodes lbl startTs pre c
        ++ pageRunNodes lbl startTs post (c + pre.length + 1) := by
  have hnone : ∀ k, add_submission_node lbl startTs bad k = none := by
    intro k
    simp [add_submission_node, h]
  refine ⟨hnone, ?_⟩
  induction pre generalizing c with
  | nil =>
    simp [pageRunNodes, hnone]
  | cons s rest ih =>
    have harith : c + 1 + rest.length + 1 = c + (rest.length + 1) + 1 := by
      omega
    simp only [List.cons_append, pageRunNodes, List.append_eq,
      List.length_cons, List.append_assoc]
    rw [ih (c + 1), harith]

/-- C4 witness: concrete lists around a dropped submission split as the
amended frame property states. -/
theorem c4_dropped_submission_frame_witness :
    pageRunNodes lblW 0 ([subKnownW] ++ subUnknownW :: [subEarlyW]) 1
      = pageRunNodes lblW 0 [subKnownW] 1
        ++ pageRunNodes lblW 0 [subEarlyW] (1 + [subKnownW].length + 1) :=
  (c4_dropped_submission_frame lblW 0 [subKnownW] [subEarlyW] subUnknownW 1
    (by decide)).2

/-- C2: one step of the submission pagination loop behaves as specified:
an empty page stops; a non-empty page with `hasBefore = true` whose last
submission id equals the cursor used for this page stops normally (no
error is raised and the remaining responses are never consulted); with a
fresh cursor the loop continues on the rest with the last id as the new
cursor and the counter advanced; and `hasBefore = false` stops after the
page.  Together with the loop's structural recursion on the page list this
rules out infinite repetition on a stalled cursor. -/
theorem c2_submission_pagination_step (lbl : LabelMap) (startTs : Int)
    (pg : SubPage) (rest : List (Except PtaErr SubPage))
    (before : Option String) (counter : Nat) :
    (pg.submissions = [] →
      process_submissions_loop lbl startTs (Except.ok pg :: rest) before counter
        = Except.ok []) ∧
    (pg.submissions ≠ [] → pg.hasBefore = true → nextCursorOf pg = before →
      process_submissions_loop lbl startTs (Except.ok pg :: rest) before counter
        = Except.ok (pageRunNodes lbl startTs pg.submissions counter)) ∧
    (pg.submissions ≠ [] → pg.hasBefore = true → nextCursorOf pg ≠ before →
      process_submissions_loop lbl startTs (Except.ok pg :: rest) before counter
        = match process_submissions_loop lbl startTs rest (nextCursorOf pg)
            (counter + pg.submissions.length) with
          | Except.error e => Except.error e
          | Except.ok more =>
            Except.ok (pageRunNodes lbl startTs pg.submissions counter ++ more)) ∧
    (pg.submissions ≠ [] → pg.hasBefore = false →
      process_submissions_loop lbl startTs (Except.ok pg :: rest) before counter
        = Except.ok (pageRunNodes lbl startTs pg.submissions counter)) := by
  refine ⟨?_, ?_, ?_, ?_⟩
  · intro hemp
    simp [process_submissions_loop, hemp]
  · intro hne hhb hcur
    simp [process_submissions_loop, List.isEmpty_iff, hne, hhb, hcur]
  · intro hne hhb hcur
    simp [process_submissions_loop, List.isEmpty_iff, hne, hhb, hcur]
  · intro hne hhb
    simp [process_submissions_loop, List.isEmpty_iff, hne, hhb]

def pgStallW : SubPage := ⟨[subKnownW], true⟩

/-- C2 witness: a page with `hasBefore = true` whose last id "s2" equals
the cursor stops the loop normally even though the remaining response
sequence would error if consulted. -/
theorem c2_submission_pagination_witness :
    process_submissions_loop lblW 0
        [Except.ok pgStallW, Except.error (PtaErr.api "never fetched")]
        (some "s2") 1
      = Except.ok (pageRunNodes lblW 0 pgStallW.submissions 1) :=
  (c2_submission_pagination_step lblW 0 pgStallW
      [Except.error (PtaErr.api "never fetched")] (some "s2") 1).2.1
    (by decide) (by decide) (by decide)

/-- Scrubbing the finalized node's timestamp erases the only dependence on
the clock reading. -/
theorem scrubFinalized_finalizedNode (s lenText : String) (now1 now2 : Int) :
    scrubFinalized s (finalizedNode lenText now1)
      = scrubFinalized s (finalizedNode lenText now2) := by
  simp [scrubFinalized, finalizedNode, replaceTimestampChild, xleaf]

/-- C7: generation is deterministic up to the finalization timestamp — two
runs over the same fixed response scenario, differing only in the clock
reading, serialize to byte-identical documents once the
`finalized/timestamp` text is overwritten by a common placeholder. -/
theorem c7_generation_deterministic (cfg : GenConfig) (selected : Option String)
    (scen : Scenario) (now1 now2 : Int) :
    Except.map (fun doc => serializeDoc (setFinalTimestampText "TS" doc))
        (generate_contest_xml cfg selected scen now1)
      = Except.map (fun doc => serializeDoc (setFinalTimestampText "TS" doc))
        (generate_contest_xml cfg selected scen now2) := by
  by_cases hf : strFalsy selected = true
  · simp [generate_contest_xml, hf]
  · have hf2 : strFalsy selected = false := by
      simpa using hf
    unfold generate_contest_xml
    rw [hf2]
    simp only [Bool.false_eq_true, if_false]
    cases hd : scen.examDetail with
    | error e => simp [hd]
    | ok detail =>
      simp only [hd]
      cases hp : scen.problemsResp with
      | error e => simp [hp]
      | ok probs =>
        simp only [hp]
        cases ht : process_teams_loop cfg scen.teamPages 0 ⟨[], []⟩ with
        | error e => simp [ht]
        | ok tm =>
          obtain ⟨maps, teamNodes⟩ := tm
          simp only [ht]
          cases hs : process_submissions_loop (process_problems probs).1
              (contestStart detail) scen.subPages none 1 with
          | error e => simp [hs]
          | ok runNodes =>
            simp only [hs, Except.map, Except.ok.injEq]
            have key := scrubFinalized_finalizedNode "TS"
              (formatHMS (resolveDuration detail)) now1 now2
            congr 1
            simp only [setFinalTimestampText, List.map_cons, List.map_append]
            rw [key]
